import Mathlib

/-!
# Verification of `src/hooks/create-workspace-member.js`

A shallow embedding of the Auth0 post-change-password hook
`createWorkspaceMember` and its helpers `_getToken` and `_createMember`.

JavaScript values that flow through the hook (metadata fields, JSON response
fields) are modelled by `JsValue`; errors by `JsErr`; the four remote
interactions (management-API user read, token fetch, member creation,
management-API metadata replace) are modelled by an oracle record `World`
giving each interaction's outcome, and the hook is a pure function from the
user, the secrets and the oracle to the list of outbound calls it performed
(in order) together with how it invoked (or failed to invoke) the completion
callback `cb`.
-/

/-- A JavaScript value, as far as the hook inspects values: `undefined`,
`null`, booleans, (integral) numbers and strings. -/
inductive JsValue where
  | undef : JsValue
  | null : JsValue
  | bool (b : Bool) : JsValue
  | num (n : Int) : JsValue
  | str (s : String) : JsValue
deriving DecidableEq, Repr

/-- JavaScript truthiness of a `JsValue`: `undefined`, `null`, `false`, `0`
and `""` are falsy, everything else is truthy.  This is the semantics of the
guard `if (!app_metadata.isUserInvite)`. -/
def JsValue.truthy : JsValue → Bool
  | .undef => false
  | .null => false
  | .bool b => b
  | .num n => n != 0
  | .str s => s != ""

/-- JavaScript string coercion as performed by a template literal
(`` `https://.../${workspaceId}/members` ``, `` `Bearer ${token}` ``). -/
def JsValue.asString : JsValue → String
  | .undef => "undefined"
  | .null => "null"
  | .bool b => if b then "true" else "false"
  | .num n => toString n
  | .str s => s

/-- A JavaScript error value: either one thrown by the hook itself via
`new Error(msg)`, or an arbitrary error propagated from a dependency (the
management client or a rejected `fetch`). -/
inductive JsErr where
  | jsError (msg : String) : JsErr
  | external (tag : String) : JsErr
deriving DecidableEq, Repr

/-- The webtask secrets bag (`context.webtask.secrets`). -/
structure Secrets where
  AUTH0_DOMAIN : String
  ACCOUNT_CLIENT_ID : String
  ACCOUNT_CLIENT_SECRET : String
  CREATE_WORKSPACE_MEMBER_CLIENT_ID : String
  CREATE_WORKSPACE_MEMBER_CLIENT_SECRET : String
  AUDIENCE : String
  TOKEN_ENDPOINT : String
deriving DecidableEq, Repr

/-- The triggering user object (`user`). -/
structure User where
  id : String
  username : String
  email : String
deriving DecidableEq, Repr

/-- The `app_metadata` object attached to a user record, restricted to the
fields the hook reads (`isUserInvite` and `workspaceId`); a field a concrete
user lacks holds `JsValue.undef`. -/
structure AppMetadata where
  isUserInvite : JsValue
  workspaceId : JsValue
deriving DecidableEq, Repr

/-- The empty object `{}` used as the destructuring default in
`const { app_metadata = {} } = await managementClient.getUser(...)`:
every field reads as `undefined`. -/
def emptyAppMetadata : AppMetadata := ⟨.undef, .undef⟩

/-- The slice of the management-API user record the hook destructures:
`app_metadata`, which may be absent altogether. -/
structure UserRecord where
  app_metadata : Option AppMetadata
deriving DecidableEq, Repr

/-- The JSON body of the token request built by `_getToken`. -/
structure TokenRequestBody where
  client_id : String
  client_secret : String
  audience : String
  grant_type : String
deriving DecidableEq, Repr

/-- The JSON body of the member-creation request built by `_createMember`. -/
structure MemberRequestBody where
  userId : String
  email : String
  fullName : String
deriving DecidableEq, Repr

/-- The metadata-replace payload (`newAppMetadata`) sent to
`managementClient.updateAppMetadata`. -/
structure NewAppMetadata where
  isUserInvite : Bool
  inviteMsg : String
deriving DecidableEq, Repr

/-- An outbound call performed by the hook, with the data it sent. -/
inductive Call where
  | getUser (id : String) : Call
  | tokenFetch (endpoint : String) (body : TokenRequestBody) : Call
  | createMember (url : String) (authorization : String)
      (body : MemberRequestBody) : Call
  | updateAppMetadata (id : String) (payload : NewAppMetadata) : Call
deriving DecidableEq, Repr

/-- How the hook ended: `cb()` (success), `cb(err)` (failure), or the hook
returned without ever invoking `cb`. -/
inductive CbResult where
  | notCalled : CbResult
  | success : CbResult
  | failure (e : JsErr) : CbResult
deriving DecidableEq, Repr

/-- `node-fetch`'s `res.ok`: true exactly when the HTTP status is 200–299. -/
def statusOk (status : Nat) : Bool := 200 ≤ status && status ≤ 299

/-- The token endpoint's response: HTTP status and the `access_token` field
of the parsed JSON body. -/
structure TokenResponse where
  status : Nat
  access_token : JsValue
deriving DecidableEq, Repr

/-- The member-creation endpoint's response: HTTP status and the parsed JSON
body (the created member representation). -/
structure MemberResponse where
  status : Nat
  body : JsValue
deriving DecidableEq, Repr

/-- Oracle for the remote world: the outcome of each of the four possible
interactions of one invocation.  `Except.error e` models a rejected promise
(network failure or management-client error). -/
structure World where
  getUserResult : Except JsErr UserRecord
  tokenOutcome : Except JsErr TokenResponse
  memberOutcome : Except JsErr MemberResponse
  updateResult : Except JsErr Unit
deriving Repr

/-- Embedding of `_getToken(secrets)`: one POST to `secrets.TOKEN_ENDPOINT`
with the client-credentials JSON body; on non-ok status throws
`Error('Failed to fetch token')`, otherwise returns the `access_token`
field of the response body. -/
def getToken (secrets : Secrets) (w : World) :
    List Call × Except JsErr JsValue :=
  let body : TokenRequestBody :=
    { client_id := secrets.CREATE_WORKSPACE_MEMBER_CLIENT_ID
      client_secret := secrets.CREATE_WORKSPACE_MEMBER_CLIENT_SECRET
      audience := secrets.AUDIENCE
      grant_type := "client_credentials" }
  let call := Call.tokenFetch secrets.TOKEN_ENDPOINT body
  match w.tokenOutcome with
  | .error e => ([call], .error e)
  | .ok res =>
    if !(statusOk res.status) then
      ([call], .error (.jsError "Failed to fetch token"))
    else
      ([call], .ok res.access_token)

/-- Embedding of `_createMember(token, workspaceId, userId, email)`: one
POST to `https://api.upstand.fm/workspaces/${workspaceId}/members` with a
`Bearer` Authorization header and body `{userId, email, fullName: 'User'}`;
on non-ok status throws `Error('Failed to create workspace member')`,
otherwise returns the parsed response body. -/
def createMember (token : JsValue) (workspaceId : JsValue)
    (userId : String) (email : String) (w : World) :
    List Call × Except JsErr JsValue :=
  let url :=
    "https://api.upstand.fm/workspaces/" ++ workspaceId.asString ++ "/members"
  let authorization := "Bearer " ++ token.asString
  let body : MemberRequestBody :=
    { userId := userId, email := email, fullName := "User" }
  let call := Call.createMember url authorization body
  match w.memberOutcome with
  | .error e => ([call], .error e)
  | .ok res =>
    if !(statusOk res.status) then
      ([call], .error (.jsError "Failed to create workspace member"))
    else
      ([call], .ok res.body)

/-- Embedding of the exported hook `createWorkspaceMember(user, context, cb)`.
Returns the outbound calls performed, in order, and the way `cb` was (or was
not) invoked.  Mirrors the source: derive `userId = 'auth0|' + user.id`,
read the user record (defaulting `app_metadata` to `{}`), bail out with a
plain `return` (no `cb`) when `app_metadata.isUserInvite` is not truthy,
otherwise fetch a token, create the member, replace the metadata with
`{isUserInvite: false, inviteMsg: ''}`, and call `cb()`; any error thrown on
the way is caught and passed to `cb(err)`. -/
def createWorkspaceMember (user : User) (secrets : Secrets) (w : World) :
    List Call × CbResult :=
  let userId := "auth0|" ++ user.id
  let readCall := Call.getUser userId
  match w.getUserResult with
  | .error e => ([readCall], .failure e)
  | .ok record =>
    let app_metadata := record.app_metadata.getD emptyAppMetadata
    if !app_metadata.isUserInvite.truthy then
      ([readCall], .notCalled)
    else
      match getToken secrets w with
      | (tokenCalls, .error e) => (readCall :: tokenCalls, .failure e)
      | (tokenCalls, .ok token) =>
        match createMember token app_metadata.workspaceId userId
            user.email w with
        | (memberCalls, .error e) =>
          (readCall :: tokenCalls ++ memberCalls, .failure e)
        | (memberCalls, .ok _) =>
          let newAppMetadata : NewAppMetadata :=
            { isUserInvite := false, inviteMsg := "" }
          let updateCall := Call.updateAppMetadata userId newAppMetadata
          match w.updateResult with
          | .error e =>
            (readCall :: tokenCalls ++ memberCalls ++ [updateCall],
             .failure e)
          | .ok _ =>
            (readCall :: tokenCalls ++ memberCalls ++ [updateCall],
             .success)

/-- The derived management-API identifier, `'auth0|' + user.id` (line 129). -/
def mgmtUserId (u : User) : String := "auth0|" ++ u.id

/-- The metadata the hook works with: the record's `app_metadata`, defaulted
to the empty object when absent (the destructuring default on line 133). -/
def metadataOf (r : UserRecord) : AppMetadata :=
  r.app_metadata.getD emptyAppMetadata

/-- The token-request body `_getToken` builds from the secrets. -/
def tokenRequestOf (s : Secrets) : TokenRequestBody :=
  { client_id := s.CREATE_WORKSPACE_MEMBER_CLIENT_ID
    client_secret := s.CREATE_WORKSPACE_MEMBER_CLIENT_SECRET
    audience := s.AUDIENCE
    grant_type := "client_credentials" }

/-- The token-fetch call `_getToken` performs. -/
def tokenCallOf (s : Secrets) : Call :=
  Call.tokenFetch s.TOKEN_ENDPOINT (tokenRequestOf s)

/-- The member-creation call `_createMember` performs for a given token,
workspace id and user. -/
def memberCallOf (token wsId : JsValue) (u : User) : Call :=
  Call.createMember
    ("https://api.upstand.fm/workspaces/" ++ wsId.asString ++ "/members")
    ("Bearer " ++ token.asString)
    { userId := mgmtUserId u, email := u.email, fullName := "User" }

/-- The literal replacement payload `{isUserInvite: false, inviteMsg: ''}`
(lines 154–157). -/
def clearedMetadata : NewAppMetadata := { isUserInvite := false, inviteMsg := "" }

/-- The metadata-replace call the hook performs (line 161). -/
def updateCallOf (u : User) : Call :=
  Call.updateAppMetadata (mgmtUserId u) clearedMetadata

/-- The step of the hook a call belongs to, used to express that no step is
ever performed twice in one invocation. -/
def Call.step : Call → Nat
  | .getUser _ => 0
  | .tokenFetch _ _ => 1
  | .createMember _ _ _ => 2
  | .updateAppMetadata _ _ => 3

/-- A concrete secrets bag for witnesses. -/
def sampleSecrets : Secrets :=
  { AUTH0_DOMAIN := "upstandfm.eu.auth0.com"
    ACCOUNT_CLIENT_ID := "account-client-id"
    ACCOUNT_CLIENT_SECRET := "account-client-secret"
    CREATE_WORKSPACE_MEMBER_CLIENT_ID := "member-client-id"
    CREATE_WORKSPACE_MEMBER_CLIENT_SECRET := "member-client-secret"
    AUDIENCE := "https://api.upstand.fm"
    TOKEN_ENDPOINT := "https://upstandfm.eu.auth0.com/oauth/token" }

/-- A concrete triggering user for witnesses. -/
def sampleUser : User :=
  { id := "abc123", username := "alice", email := "alice@example.com" }

/-- Metadata of an invited user. -/
def inviteMetadata : AppMetadata :=
  { isUserInvite := .bool true, workspaceId := .str "ws1" }

/-- A world in which the user is invited and every remote call succeeds. -/
def happyWorld : World :=
  { getUserResult := .ok ⟨some inviteMetadata⟩
    tokenOutcome := .ok ⟨200, .str "tok"⟩
    memberOutcome := .ok ⟨201, .str "member"⟩
    updateResult := .ok () }

/-- Like `happyWorld` but the stored invite flag is `false`. -/
def noInviteWorld : World :=
  { happyWorld with
    getUserResult := .ok ⟨some { isUserInvite := .bool false, workspaceId := .undef }⟩ }

/-- Like `happyWorld` but the user record has no `app_metadata` at all. -/
def noMetadataWorld : World :=
  { happyWorld with getUserResult := .ok ⟨none⟩ }

/-- Like `happyWorld` but the management-API user read rejects. -/
def readErrorWorld : World :=
  { happyWorld with getUserResult := .error (.external "getUser failed") }

/-- Like `happyWorld` but the token endpoint answers HTTP 401. -/
def tokenDeniedWorld : World :=
  { happyWorld with tokenOutcome := .ok ⟨401, .undef⟩ }

/-- Like `happyWorld` but the member-creation endpoint answers HTTP 500. -/
def memberFailedWorld : World :=
  { happyWorld with memberOutcome := .ok ⟨500, .undef⟩ }

/-- Like `happyWorld` but the metadata-replace call rejects. -/
def updateErrorWorld : World :=
  { happyWorld with updateResult := .error (.external "update failed") }

/-- Like `happyWorld` but the invite flag holds the (truthy) string "false". -/
def strInviteWorld : World :=
  { happyWorld with
    getUserResult := .ok ⟨some { isUserInvite := .str "false", workspaceId := .str "ws1" }⟩ }

lemma run_getUser_error (u : User) (s : Secrets) (w : World) (e : JsErr)
    (hg : w.getUserResult = .error e) :
    createWorkspaceMember u s w = ([Call.getUser (mgmtUserId u)], .failure e) := by
  simp [createWorkspaceMember, mgmtUserId, hg]

lemma run_noInvite (u : User) (s : Secrets) (w : World) (r : UserRecord)
    (hg : w.getUserResult = .ok r)
    (hi : (metadataOf r).isUserInvite.truthy = false) :
    createWorkspaceMember u s w = ([Call.getUser (mgmtUserId u)], .notCalled) := by
  simp [createWorkspaceMember, mgmtUserId, metadataOf, hg] at hi ⊢
  simp [hi]

lemma run_token_reject (u : User) (s : Secrets) (w : World) (r : UserRecord)
    (e : JsErr) (hg : w.getUserResult = .ok r)
    (hi : (metadataOf r).isUserInvite.truthy = true)
    (ht : w.tokenOutcome = .error e) :
    createWorkspaceMember u s w =
      ([Call.getUser (mgmtUserId u), tokenCallOf s], .failure e) := by
  simp [metadataOf] at hi
  simp [createWorkspaceMember, getToken, mgmtUserId, tokenCallOf, tokenRequestOf,
    hg, hi, ht]

lemma run_token_bad (u : User) (s : Secrets) (w : World) (r : UserRecord)
    (tr : TokenResponse) (hg : w.getUserResult = .ok r)
    (hi : (metadataOf r).isUserInvite.truthy = true)
    (ht : w.tokenOutcome = .ok tr) (hts : statusOk tr.status = false) :
    createWorkspaceMember u s w =
      ([Call.getUser (mgmtUserId u), tokenCallOf s],
       .failure (.jsError "Failed to fetch token")) := by
  simp [metadataOf] at hi
  simp [createWorkspaceMember, getToken, mgmtUserId, tokenCallOf, tokenRequestOf,
    hg, hi, ht, hts]

lemma run_member_reject (u : User) (s : Secrets) (w : World) (r : UserRecord)
    (tr : TokenResponse) (e : JsErr) (hg : w.getUserResult = .ok r)
    (hi : (metadataOf r).isUserInvite.truthy = true)
    (ht : w.tokenOutcome = .ok tr) (hts : statusOk tr.status = true)
    (hm : w.memberOutcome = .error e) :
    createWorkspaceMember u s w =
      ([Call.getUser (mgmtUserId u), tokenCallOf s,
        memberCallOf tr.access_token (metadataOf r).workspaceId u],
       .failure e) := by
  simp [metadataOf] at hi ⊢
  simp [createWorkspaceMember, getToken, createMember, mgmtUserId, tokenCallOf,
    tokenRequestOf, memberCallOf, hg, hi, ht, hts, hm]

lemma run_member_bad (u : User) (s : Secrets) (w : World) (r : UserRecord)
    (tr : TokenResponse) (mr : MemberResponse) (hg : w.getUserResult = .ok r)
    (hi : (metadataOf r).isUserInvite.truthy = true)
    (ht : w.tokenOutcome = .ok tr) (hts : statusOk tr.status = true)
    (hm : w.memberOutcome = .ok mr) (hms : statusOk mr.status = false) :
    createWorkspaceMember u s w =
      ([Call.getUser (mgmtUserId u), tokenCallOf s,
        memberCallOf tr.access_token (metadataOf r).workspaceId u],
       .failure (.jsError "Failed to create workspace member")) := by
  simp [metadataOf] at hi ⊢
  simp [createWorkspaceMember, getToken, createMember, mgmtUserId, tokenCallOf,
    tokenRequestOf, memberCallOf, hg, hi, ht, hts, hm, hms]

lemma run_update_error (u : User) (s : Secrets) (w : World) (r : UserRecord)
    (tr : TokenResponse) (mr : MemberResponse) (e : JsErr)
    (hg : w.getUserResult = .ok r)
    (hi : (metadataOf r).isUserInvite.truthy = true)
    (ht : w.tokenOutcome = .ok tr) (hts : statusOk tr.status = true)
    (hm : w.memberOutcome = .ok mr) (hms : statusOk mr.status = true)
    (hu : w.updateResult = .error e) :
    createWorkspaceMember u s w =
      ([Call.getUser (mgmtUserId u), tokenCallOf s,
        memberCallOf tr.access_token (metadataOf r).workspaceId u,
        updateCallOf u],
       .failure e) := by
  simp [metadataOf] at hi ⊢
  simp [createWorkspaceMember, getToken, createMember, mgmtUserId, tokenCallOf,
    tokenRequestOf, memberCallOf, updateCallOf, clearedMetadata, hg, hi, ht,
    hts, hm, hms, hu]

lemma run_happy (u : User) (s : Secrets) (w : World) (r : UserRecord)
    (tr : TokenResponse) (mr : MemberResponse)
    (hg : w.getUserResult = .ok r)
    (hi : (metadataOf r).isUserInvite.truthy = true)
    (ht : w.tokenOutcome = .ok tr) (hts : statusOk tr.status = true)
    (hm : w.memberOutcome = .ok mr) (hms : statusOk mr.status = true)
    (hu : w.updateResult = .ok ()) :
    createWorkspaceMember u s w =
      ([Call.getUser (mgmtUserId u), tokenCallOf s,
        memberCallOf tr.access_token (metadataOf r).workspaceId u,
        updateCallOf u],
       .success) := by
  simp [metadataOf] at hi ⊢
  simp [createWorkspaceMember, getToken, createMember, mgmtUserId, tokenCallOf,
    tokenRequestOf, memberCallOf, updateCallOf, clearedMetadata, hg, hi, ht,
    hts, hm, hms, hu]

lemma trace_cases (u : User) (s : Secrets) (w : World) :
    (createWorkspaceMember u s w).1 = [Call.getUser (mgmtUserId u)] ∨
    (createWorkspaceMember u s w).1 = [Call.getUser (mgmtUserId u), tokenCallOf s] ∨
    (∃ t wsId, (createWorkspaceMember u s w).1 =
      [Call.getUser (mgmtUserId u), tokenCallOf s, memberCallOf t wsId u]) ∨
    (∃ t wsId, (createWorkspaceMember u s w).1 =
      [Call.getUser (mgmtUserId u), tokenCallOf s, memberCallOf t wsId u,
       updateCallOf u]) := by
  rcases hg : w.getUserResult with e | r
  · exact Or.inl (by rw [run_getUser_error u s w e hg])
  · cases hi : (metadataOf r).isUserInvite.truthy with
    | false => exact Or.inl (by rw [run_noInvite u s w r hg hi])
    | true =>
      rcases ht : w.tokenOutcome with e | tr
      · exact Or.inr (Or.inl (by rw [run_token_reject u s w r e hg hi ht]))
      · cases hts : statusOk tr.status with
        | false =>
          exact Or.inr (Or.inl (by rw [run_token_bad u s w r tr hg hi ht hts]))
        | true =>
          rcases hm : w.memberOutcome with e | mr
          · exact Or.inr (Or.inr (Or.inl
              ⟨tr.access_token, (metadataOf r).workspaceId,
               by rw [run_member_reject u s w r tr e hg hi ht hts hm]⟩))
          · cases hms : statusOk mr.status with
            | false =>
              exact Or.inr (Or.inr (Or.inl
                ⟨tr.access_token, (metadataOf r).workspaceId,
                 by rw [run_member_bad u s w r tr mr hg hi ht hts hm hms]⟩))
            | true =>
              rcases hu : w.updateResult with e | uu
              · exact Or.inr (Or.inr (Or.inr
                  ⟨tr.access_token, (metadataOf r).workspaceId,
                   by rw [run_update_error u s w r tr mr e hg hi ht hts hm hms hu]⟩))
              · cases uu
                exact Or.inr (Or.inr (Or.inr
                  ⟨tr.access_token, (metadataOf r).workspaceId,
                   by rw [run_happy u s w r tr mr hg hi ht hts hm hms hu]⟩))

lemma success_requires (u : User) (s : Secrets) (w : World)
    (h : (createWorkspaceMember u s w).2 = .success) :
    (∃ r, w.getUserResult = .ok r ∧ (metadataOf r).isUserInvite.truthy = true) ∧
    (∃ tr, w.tokenOutcome = .ok tr ∧ statusOk tr.status = true) ∧
    (∃ mr, w.memberOutcome = .ok mr ∧ statusOk mr.status = true) ∧
    w.updateResult = .ok () := by
  rcases hg : w.getUserResult with e | r
  · rw [run_getUser_error u s w e hg] at h
    simp at h
  · cases hi : (metadataOf r).isUserInvite.truthy with
    | false =>
      rw [run_noInvite u s w r hg hi] at h
      simp at h
    | true =>
      rcases ht : w.tokenOutcome with e | tr
      · rw [run_token_reject u s w r e hg hi ht] at h
        simp at h
      · cases hts : statusOk tr.status with
        | false =>
          rw [run_token_bad u s w r tr hg hi ht hts] at h
          simp at h
        | true =>
          rcases hm : w.memberOutcome with e | mr
          · rw [run_member_reject u s w r tr e hg hi ht hts hm] at h
            simp at h
          · cases hms : statusOk mr.status with
            | false =>
              rw [run_member_bad u s w r tr mr hg hi ht hts hm hms] at h
              simp at h
            | true =>
              rcases hu : w.updateResult with e | uu
              · rw [run_update_error u s w r tr mr e hg hi ht hts hm hms hu] at h
                simp at h
              · cases uu
                exact ⟨⟨r, rfl, hi⟩, ⟨tr, rfl, hts⟩, ⟨mr, rfl, hms⟩, rfl⟩


/-- C1 (code-bug evidence): for a user whose fetched app metadata has the
invite flag `false`, and likewise for a user with no `app_metadata` at all,
the hook performs no outbound call beyond the metadata read — but it returns
WITHOUT invoking the completion callback (the `return;` on line 141 skips
`cb()`), so it does not signal successful completion as the claim states. -/
theorem c1_falsy_invite_returns_without_callback :
    createWorkspaceMember sampleUser sampleSecrets noInviteWorld =
      ([Call.getUser ("auth0|" ++ sampleUser.id)], CbResult.notCalled) ∧
    createWorkspaceMember sampleUser sampleSecrets noMetadataWorld =
      ([Call.getUser ("auth0|" ++ sampleUser.id)], CbResult.notCalled) ∧
    CbResult.notCalled ≠ CbResult.success :=
  ⟨by decide, by decide, by decide⟩

/-- C2: for every user whose metadata has a truthy invite flag, when all
outbound calls succeed the hook performs exactly one token fetch, then one
member creation with body `{userId: "auth0|<id>", email: <email>,
fullName: "User"}`, then one metadata replace with
`{isUserInvite: false, inviteMsg: ""}`, in that order, and invokes the
completion callback with no error. -/
theorem c2_invite_happy_path (u : User) (s : Secrets) (w : World)
    (m : AppMetadata) (tr : TokenResponse) (mr : MemberResponse)
    (hg : w.getUserResult = .ok ⟨some m⟩)
    (hi : m.isUserInvite.truthy = true)
    (ht : w.tokenOutcome = .ok tr) (hts : statusOk tr.status = true)
    (hm : w.memberOutcome = .ok mr) (hms : statusOk mr.status = true)
    (hu : w.updateResult = .ok ()) :
    createWorkspaceMember u s w =
      ([Call.getUser ("auth0|" ++ u.id),
        Call.tokenFetch s.TOKEN_ENDPOINT
          { client_id := s.CREATE_WORKSPACE_MEMBER_CLIENT_ID
            client_secret := s.CREATE_WORKSPACE_MEMBER_CLIENT_SECRET
            audience := s.AUDIENCE
            grant_type := "client_credentials" },
        Call.createMember
          ("https://api.upstand.fm/workspaces/" ++ m.workspaceId.asString
            ++ "/members")
          ("Bearer " ++ tr.access_token.asString)
          { userId := "auth0|" ++ u.id, email := u.email, fullName := "User" },
        Call.updateAppMetadata ("auth0|" ++ u.id)
          { isUserInvite := false, inviteMsg := "" }],
       CbResult.success) := by
  have h := run_happy u s w ⟨some m⟩ tr mr hg (by simpa [metadataOf] using hi)
    ht hts hm hms hu
  simpa [mgmtUserId, tokenCallOf, tokenRequestOf, memberCallOf, updateCallOf,
    clearedMetadata, metadataOf] using h

/-- Witness for C2 at a concrete invited user with all calls succeeding. -/
theorem c2_invite_happy_path_witness :
    createWorkspaceMember sampleUser sampleSecrets happyWorld =
      ([Call.getUser "auth0|abc123",
        Call.tokenFetch "https://upstandfm.eu.auth0.com/oauth/token"
          { client_id := "member-client-id"
            client_secret := "member-client-secret"
            audience := "https://api.upstand.fm"
            grant_type := "client_credentials" },
        Call.createMember "https://api.upstand.fm/workspaces/ws1/members"
          "Bearer tok"
          { userId := "auth0|abc123", email := "alice@example.com"
            fullName := "User" },
        Call.updateAppMetadata "auth0|abc123"
          { isUserInvite := false, inviteMsg := "" }],
       CbResult.success) := by
  have h := c2_invite_happy_path sampleUser sampleSecrets happyWorld
    inviteMetadata ⟨200, JsValue.str "tok"⟩ ⟨201, JsValue.str "member"⟩
    rfl (by decide) rfl (by decide) rfl (by decide) rfl
  exact h.trans (by decide)

/-- C3: whenever the hook performs a metadata-replace call, its payload is
exactly the literal `{isUserInvite: false, inviteMsg: ""}`. -/
theorem c3_update_payload_literal (u : User) (s : Secrets) (w : World)
    (i : String) (p : NewAppMetadata)
    (h : Call.updateAppMetadata i p ∈ (createWorkspaceMember u s w).1) :
    p = { isUserInvite := false, inviteMsg := "" } := by
  rcases trace_cases u s w with htr | htr | ⟨t, wsId, htr⟩ | ⟨t, wsId, htr⟩ <;>
    rw [htr] at h <;>
    simp_all [mgmtUserId, tokenCallOf, tokenRequestOf, memberCallOf,
      updateCallOf, clearedMetadata]

/-- Witness for C3: the metadata-replace call of a concrete happy-path run
carries the literal payload. -/
theorem c3_update_payload_literal_witness :
    ({ isUserInvite := false, inviteMsg := "" } : NewAppMetadata) =
      { isUserInvite := false, inviteMsg := "" } :=
  c3_update_payload_literal sampleUser sampleSecrets happyWorld "auth0|abc123"
    { isUserInvite := false, inviteMsg := "" } (by decide)

/-- C7: every management-API call in the hook's trace (the user read and the
metadata update) addresses the identifier obtained by prepending `auth0|` to
the user's raw id. -/
theorem c7_mgmt_identifier (u : User) (s : Secrets) (w : World) (i : String) :
    (Call.getUser i ∈ (createWorkspaceMember u s w).1 →
      i = "auth0|" ++ u.id) ∧
    (∀ p, Call.updateAppMetadata i p ∈ (createWorkspaceMember u s w).1 →
      i = "auth0|" ++ u.id) := by
  constructor
  · intro h
    rcases trace_cases u s w with htr | htr | ⟨t, wsId, htr⟩ | ⟨t, wsId, htr⟩ <;>
      rw [htr] at h <;>
      simp_all [mgmtUserId, tokenCallOf, tokenRequestOf, memberCallOf,
        updateCallOf, clearedMetadata]
  · intro p h
    rcases trace_cases u s w with htr | htr | ⟨t, wsId, htr⟩ | ⟨t, wsId, htr⟩ <;>
      rw [htr] at h <;>
      simp_all [mgmtUserId, tokenCallOf, tokenRequestOf, memberCallOf,
        updateCallOf, clearedMetadata]

/-- Witness for C7: for raw id "abc123" the derived identifier is exactly
"auth0|abc123". -/
theorem c7_mgmt_identifier_witness :
    ("auth0|abc123" : String) = "auth0|" ++ sampleUser.id :=
  (c7_mgmt_identifier sampleUser sampleSecrets noInviteWorld "auth0|abc123").1
    (by decide)

/-- C8: whenever the token endpoint answers with a success status, the
token-acquisition function returns exactly the `access_token` field of the
response body. -/
theorem c8_token_success_returns_access_token (s : Secrets) (w : World)
    (tr : TokenResponse) (ht : w.tokenOutcome = .ok tr)
    (hok : statusOk tr.status = true) :
    (getToken s w).2 = .ok tr.access_token := by
  simp [getToken, ht, hok]

/-- Witness for C8 at a concrete 200 response. -/
theorem c8_token_success_returns_access_token_witness :
    (getToken sampleSecrets happyWorld).2 = .ok (JsValue.str "tok") :=
  c8_token_success_returns_access_token sampleSecrets happyWorld
    ⟨200, JsValue.str "tok"⟩ rfl (by decide)

/-- C9: when the management record has no `app_metadata` field, the hook
does not fail: the metadata defaults to the empty object and the run is
identical to a run whose metadata is the empty object — the no-op branch,
performing only the metadata read. -/
theorem c9_missing_metadata_noop (u : User) (s : Secrets) (w : World)
    (hg : w.getUserResult = .ok ⟨none⟩) :
    createWorkspaceMember u s w =
      ([Call.getUser ("auth0|" ++ u.id)], CbResult.notCalled) ∧
    createWorkspaceMember u s w =
      createWorkspaceMember u s
        { w with getUserResult := .ok ⟨some emptyAppMetadata⟩ } := by
  have h1 := run_noInvite u s w ⟨none⟩ hg (by decide)
  have h2 := run_noInvite u s
    { w with getUserResult := .ok ⟨some emptyAppMetadata⟩ }
    ⟨some emptyAppMetadata⟩ rfl (by decide)
  exact ⟨by simpa [mgmtUserId] using h1, h1.trans h2.symm⟩

/-- Witness for C9 at a concrete record without `app_metadata`. -/
theorem c9_missing_metadata_noop_witness :
    createWorkspaceMember sampleUser sampleSecrets noMetadataWorld =
      ([Call.getUser ("auth0|" ++ sampleUser.id)], CbResult.notCalled) :=
  (c9_missing_metadata_noop sampleUser sampleSecrets noMetadataWorld rfl).1

/-- C4: when the invite flag is truthy and the token endpoint answers a
non-success status, the hook fails with the token-fetch error, invokes the
callback with that error, and performs no member-creation and no
metadata-replace call. -/
theorem c4_token_failure_aborts (u : User) (s : Secrets) (w : World)
    (m : AppMetadata) (tr : TokenResponse)
    (hg : w.getUserResult = .ok ⟨some m⟩)
    (hi : m.isUserInvite.truthy = true)
    (ht : w.tokenOutcome = .ok tr) (hts : statusOk tr.status = false) :
    (createWorkspaceMember u s w).2 =
      .failure (.jsError "Failed to fetch token") ∧
    (∀ url a b, Call.createMember url a b ∉ (createWorkspaceMember u s w).1) ∧
    (∀ i p, Call.updateAppMetadata i p ∉ (createWorkspaceMember u s w).1) := by
  have h := run_token_bad u s w ⟨some m⟩ tr hg (by simpa [metadataOf] using hi)
    ht hts
  rw [h]
  exact ⟨rfl, fun url a b => by simp [tokenCallOf, tokenRequestOf],
    fun i p => by simp [tokenCallOf, tokenRequestOf]⟩

/-- Witness for C4 at a concrete 401 token response. -/
theorem c4_token_failure_aborts_witness :
    (createWorkspaceMember sampleUser sampleSecrets tokenDeniedWorld).2 =
      CbResult.failure (.jsError "Failed to fetch token") :=
  (c4_token_failure_aborts sampleUser sampleSecrets tokenDeniedWorld
    inviteMetadata ⟨401, JsValue.undef⟩ rfl (by decide) rfl (by decide)).1

/-- C5: when the invite flag is truthy, the token fetch succeeds and the
member-creation endpoint answers a non-success status, the hook fails with
the member-creation error and performs no metadata-replace call, so the
stored invite flag is left untouched. -/
theorem c5_member_failure_no_metadata_update (u : User) (s : Secrets)
    (w : World) (m : AppMetadata) (tr : TokenResponse) (mr : MemberResponse)
    (hg : w.getUserResult = .ok ⟨some m⟩)
    (hi : m.isUserInvite.truthy = true)
    (ht : w.tokenOutcome = .ok tr) (hts : statusOk tr.status = true)
    (hm : w.memberOutcome = .ok mr) (hms : statusOk mr.status = false) :
    (createWorkspaceMember u s w).2 =
      .failure (.jsError "Failed to create workspace member") ∧
    (∀ i p, Call.updateAppMetadata i p ∉ (createWorkspaceMember u s w).1) := by
  have h := run_member_bad u s w ⟨some m⟩ tr mr hg
    (by simpa [metadataOf] using hi) ht hts hm hms
  rw [h]
  exact ⟨rfl,
    fun i p => by simp [tokenCallOf, tokenRequestOf, memberCallOf]⟩

/-- Witness for C5 at a concrete 500 member-creation response. -/
theorem c5_member_failure_no_metadata_update_witness :
    (createWorkspaceMember sampleUser sampleSecrets memberFailedWorld).2 =
      CbResult.failure (.jsError "Failed to create workspace member") :=
  (c5_member_failure_no_metadata_update sampleUser sampleSecrets
    memberFailedWorld inviteMetadata ⟨200, JsValue.str "tok"⟩
    ⟨500, JsValue.undef⟩ rfl (by decide) rfl (by decide) rfl (by decide)).1

/-- C10: the invite check is JavaScript truthiness, not equality with `true`:
with every remote call set to succeed, the full provisioning sequence runs
exactly when the stored `isUserInvite` value is truthy and is skipped when it
is falsy; moreover `1` and the string "false" are truthy while `false`, `0`,
the empty string, `null` and `undefined` are falsy. -/
theorem c10_truthiness_gate (u : User) (s : Secrets) (w : World)
    (m : AppMetadata) (tr : TokenResponse) (mr : MemberResponse)
    (hg : w.getUserResult = .ok ⟨some m⟩)
    (ht : w.tokenOutcome = .ok tr) (hts : statusOk tr.status = true)
    (hm : w.memberOutcome = .ok mr) (hms : statusOk mr.status = true)
    (hu : w.updateResult = .ok ()) :
    (m.isUserInvite.truthy = true →
      (createWorkspaceMember u s w).1 =
        [Call.getUser (mgmtUserId u), tokenCallOf s,
         memberCallOf tr.access_token m.workspaceId u, updateCallOf u]) ∧
    (m.isUserInvite.truthy = false →
      (createWorkspaceMember u s w).1 = [Call.getUser (mgmtUserId u)]) ∧
    JsValue.truthy (.num 1) = true ∧
    JsValue.truthy (.str "false") = true ∧
    JsValue.truthy (.bool true) = true ∧
    JsValue.truthy (.bool false) = false ∧
    JsValue.truthy (.num 0) = false ∧
    JsValue.truthy (.str "") = false ∧
    JsValue.truthy .null = false ∧
    JsValue.truthy .undef = false := by
  refine ⟨?_, ?_, by decide, by decide, by decide, by decide, by decide,
    by decide, by decide, by decide⟩
  · intro hi
    rw [run_happy u s w ⟨some m⟩ tr mr hg (by simpa [metadataOf] using hi)
      ht hts hm hms hu]
    simp [metadataOf]
  · intro hi
    rw [run_noInvite u s w ⟨some m⟩ hg (by simpa [metadataOf] using hi)]

/-- Witness for C10: the string "false" stored in the invite flag triggers
full provisioning. -/
theorem c10_truthiness_gate_witness :
    (createWorkspaceMember sampleUser sampleSecrets strInviteWorld).1 =
      [Call.getUser (mgmtUserId sampleUser), tokenCallOf sampleSecrets,
       memberCallOf (JsValue.str "tok") (JsValue.str "ws1") sampleUser,
       updateCallOf sampleUser] :=
  (c10_truthiness_gate sampleUser sampleSecrets strInviteWorld
    { isUserInvite := .str "false", workspaceId := .str "ws1" }
    ⟨200, JsValue.str "tok"⟩ ⟨201, JsValue.str "member"⟩
    rfl rfl (by decide) rfl (by decide) rfl).1 (by decide)

/-- C6: errors are handled uniformly: whichever step fails first, its error
is the value passed to the completion callback AND the remaining steps are
short-circuited — the whole run (trace and callback) is pinned, so after a
rejected metadata read there is no token, member or update call, after a
failed token fetch no member or update call, and after a failed member
creation no update call; the callback signals success only when every step
succeeded; and no step of the sequence is ever performed twice in one
invocation. -/
theorem c6_uniform_error_handling (u : User) (s : Secrets) (w : World) :
    (∀ e, w.getUserResult = .error e →
      createWorkspaceMember u s w =
        ([Call.getUser (mgmtUserId u)], .failure e)) ∧
    (∀ r e, w.getUserResult = .ok r →
      (metadataOf r).isUserInvite.truthy = true →
      w.tokenOutcome = .error e →
      createWorkspaceMember u s w =
        ([Call.getUser (mgmtUserId u), tokenCallOf s], .failure e)) ∧
    (∀ r tr, w.getUserResult = .ok r →
      (metadataOf r).isUserInvite.truthy = true →
      w.tokenOutcome = .ok tr → statusOk tr.status = false →
      createWorkspaceMember u s w =
        ([Call.getUser (mgmtUserId u), tokenCallOf s],
         .failure (.jsError "Failed to fetch token"))) ∧
    (∀ r tr e, w.getUserResult = .ok r →
      (metadataOf r).isUserInvite.truthy = true →
      w.tokenOutcome = .ok tr → statusOk tr.status = true →
      w.memberOutcome = .error e →
      createWorkspaceMember u s w =
        ([Call.getUser (mgmtUserId u), tokenCallOf s,
          memberCallOf tr.access_token (metadataOf r).workspaceId u],
         .failure e)) ∧
    (∀ r tr mr, w.getUserResult = .ok r →
      (metadataOf r).isUserInvite.truthy = true →
      w.tokenOutcome = .ok tr → statusOk tr.status = true →
      w.memberOutcome = .ok mr → statusOk mr.status = false →
      createWorkspaceMember u s w =
        ([Call.getUser (mgmtUserId u), tokenCallOf s,
          memberCallOf tr.access_token (metadataOf r).workspaceId u],
         .failure (.jsError "Failed to create workspace member"))) ∧
    (∀ r tr mr e, w.getUserResult = .ok r →
      (metadataOf r).isUserInvite.truthy = true →
      w.tokenOutcome = .ok tr → statusOk tr.status = true →
      w.memberOutcome = .ok mr → statusOk mr.status = true →
      w.updateResult = .error e →
      createWorkspaceMember u s w =
        ([Call.getUser (mgmtUserId u), tokenCallOf s,
          memberCallOf tr.access_token (metadataOf r).workspaceId u,
          updateCallOf u],
         .failure e)) ∧
    ((createWorkspaceMember u s w).2 = .success →
      (∃ r, w.getUserResult = .ok r ∧
        (metadataOf r).isUserInvite.truthy = true) ∧
      (∃ tr, w.tokenOutcome = .ok tr ∧ statusOk tr.status = true) ∧
      (∃ mr, w.memberOutcome = .ok mr ∧ statusOk mr.status = true) ∧
      w.updateResult = .ok ()) ∧
    ((createWorkspaceMember u s w).1.map Call.step).Nodup := by
  refine ⟨?_, ?_, ?_, ?_, ?_, ?_, success_requires u s w, ?_⟩
  · intro e hg
    exact run_getUser_error u s w e hg
  · intro r e hg hi ht
    exact run_token_reject u s w r e hg hi ht
  · intro r tr hg hi ht hts
    exact run_token_bad u s w r tr hg hi ht hts
  · intro r tr e hg hi ht hts hm
    exact run_member_reject u s w r tr e hg hi ht hts hm
  · intro r tr mr hg hi ht hts hm hms
    exact run_member_bad u s w r tr mr hg hi ht hts hm hms
  · intro r tr mr e hg hi ht hts hm hms hu
    exact run_update_error u s w r tr mr e hg hi ht hts hm hms hu
  · rcases trace_cases u s w with htr | htr | ⟨t, wsId, htr⟩ | ⟨t, wsId, htr⟩ <;>
      rw [htr] <;>
      simp [Call.step, mgmtUserId, tokenCallOf, tokenRequestOf, memberCallOf,
        updateCallOf, clearedMetadata]

/-- Witness for C6: a rejected user read short-circuits everything (the
trace is the read alone) with the read error reaching the callback, and a
rejected metadata update fails the run after the full call sequence with the
update error reaching the callback. -/
theorem c6_uniform_error_handling_witness :
    createWorkspaceMember sampleUser sampleSecrets readErrorWorld =
      ([Call.getUser (mgmtUserId sampleUser)],
       CbResult.failure (.external "getUser failed")) ∧
    createWorkspaceMember sampleUser sampleSecrets updateErrorWorld =
      ([Call.getUser (mgmtUserId sampleUser), tokenCallOf sampleSecrets,
        memberCallOf (JsValue.str "tok") (JsValue.str "ws1") sampleUser,
        updateCallOf sampleUser],
       CbResult.failure (.external "update failed")) := by
  constructor
  · exact (c6_uniform_error_handling sampleUser sampleSecrets
      readErrorWorld).1 (.external "getUser failed") rfl
  · have h := (c6_uniform_error_handling sampleUser sampleSecrets
      updateErrorWorld).2.2.2.2.2.1 ⟨some inviteMetadata⟩
      ⟨200, JsValue.str "tok"⟩ ⟨201, JsValue.str "member"⟩
      (.external "update failed") rfl (by decide) rfl (by decide) rfl
      (by decide) rfl
    exact h.trans (by decide)
